import Mathlib

/-!
Shallow embedding of `src/docs/view.py` (GitCells Documentation Viewer):
a zero-dependency documentation server that special-cases GET requests for
`/` and `/index.html` to a pre-built HTML artifact and delegates every
other request to Python's standard static-file responder.

The filesystem is modelled as an association list from path strings to
byte lists.  The request handler `do_GET` and the `__main__` block
(`main_run`, producing a trace of observable events and an exit code) are
translated directly from the source.  Python's stdlib
`SimpleHTTPRequestHandler.do_GET` is not repository code; it is modelled
from the spec (`super_do_GET`).
-/

namespace DocsView

/-- A filesystem: association list from path to file bytes. -/
abbrev FS := List (String × List Nat)

/-- Look a path up in the filesystem. -/
def fsLookup (fs : FS) (p : String) : Option (List Nat) :=
  match fs.find? (fun e => decide (e.1 = p)) with
  | some e => some e.2
  | none => none

/-- Embeds Python `os.path.exists`. -/
def fsExists (fs : FS) (p : String) : Bool :=
  (fsLookup fs p).isSome

/-- String prefix test (structural, over the character list). -/
def strStartsWith (s pre : String) : Bool :=
  pre.data.isPrefixOf s.data

/-- String suffix test (structural, over the character list). -/
def strEndsWith (s suf : String) : Bool :=
  suf.data.reverse.isPrefixOf s.data.reverse

/-- Embeds Python `os.path.join`:
if the right part is absolute it wins; otherwise they are joined with a
separator unless one is already present. -/
def pathJoin (a b : String) : String :=
  if strStartsWith b "/" then b
  else if a = "" || strEndsWith a "/" then a ++ b
  else a ++ "/" ++ b

/-- Embeds `os.path.join(os.path.dirname(__file__), '../dist/gitcells-docs.html')`:
the artifact path, relative to the directory containing the script. -/
def html_path (scriptDir : String) : String :=
  pathJoin scriptDir "../dist/gitcells-docs.html"

/-- The hardcoded port: `PORT = 8080`. -/
def PORT : Nat := 8080

/-- An HTTP response as observed by the client: status code, optional
Content-type header, body bytes. -/
structure Response where
  status : Nat
  contentType : Option String
  body : List Nat
deriving Repr, DecidableEq

/-- Characters of a URL path before any query or fragment marker. -/
def takeUntilQF : List Char → List Char
  | [] => []
  | a :: rest => if a = '?' || a = '#' then [] else a :: takeUntilQF rest

/-- Modelled from the spec: the standard responder strips the query and
fragment from the URL path before mapping it to a file. -/
def stripQueryFragment (s : String) : String :=
  String.mk (takeUntilQF s.data)

/-- Split a character list on the path separator. -/
def splitOnSlash : List Char → List (List Char)
  | [] => [[]]
  | a :: rest =>
    let r := splitOnSlash rest
    if a = '/' then [] :: r
    else
      match r with
      | [] => [[a]]
      | g :: gs => (a :: g) :: gs

/-- Modelled from the spec: how the standard static responder resolves a
URL path under the working directory (empty, `.` and `..` components are
ignored, the rest are joined onto the root). -/
def translate_path (cwd : String) (path : String) : String :=
  let comps := (splitOnSlash (takeUntilQF path.data)).filter
    (fun c => decide (c ≠ [] ∧ c ≠ ['.'] ∧ c ≠ ['.', '.']))
  comps.foldl (fun acc c => pathJoin acc (String.mk c)) cwd

/-- Modelled from the spec: content-type inference of the standard
static responder. -/
def guessType (target : String) : String :=
  if strEndsWith target ".html" then "text/html" else "application/octet-stream"

/-- Modelled from the spec: Python stdlib `SimpleHTTPRequestHandler.do_GET`
(not repository code), the "standard recursive static-file responder
resolving the path under the working directory, with that responder's
default behaviors (404 for missing files, ... appropriate content-type
inference)". -/
def super_do_GET (cwd : String) (fs : FS) (path : String) : Response :=
  let target := translate_path cwd path
  match fsLookup fs target with
  | some bytes => { status := 200, contentType := some (guessType target), body := bytes }
  | none => { status := 404, contentType := some "text/html", body := [] }

/-- Embeds `DocHandler.do_GET`: if the raw request path is exactly `/` or
`/index.html` and the artifact file exists, respond 200 / `text/html`
with the artifact's bytes; otherwise fall through to `super().do_GET()`.
`scriptDir` is `os.path.dirname(__file__)`; `cwd` is the process working
directory at request time. -/
def do_GET (scriptDir cwd : String) (fs : FS) (path : String) : Response :=
  if (decide (path = "/") || decide (path = "/index.html")) && fsExists fs (html_path scriptDir) then
    { status := 200, contentType := some "text/html",
      body := (fsLookup fs (html_path scriptDir)).getD [] }
  else
    super_do_GET cwd fs path

/-- The per-request server state.  `DocHandler` keeps no mutable state of
its own; the only data a request handler can see are the script location,
the working directory and the filesystem. -/
structure ServerState where
  scriptDir : String
  cwd : String
  fs : FS
deriving Repr, DecidableEq

/-- Handling one request: produces the response and the server state
afterwards.  The source handler mutates nothing, so the state is returned
unchanged. -/
def handle (st : ServerState) (path : String) : Response × ServerState :=
  (do_GET st.scriptDir st.cwd st.fs path, st)

/-- Observable events of the `__main__` block, in order. -/
inductive Event where
  | chdir (dir : String)
  | print (s : String)
  | browserOpen (url : String) (ok : Bool)
  | bind (host : String) (port : Nat)
  | serveLoop (cwd : String)
  | closeServer
deriving Repr, DecidableEq

/-- Result of running the script: the ordered event trace and the process
exit code. -/
structure MainResult where
  events : List Event
  exitCode : Nat
deriving Repr, DecidableEq

/-- Events up to the artifact check: `os.chdir(os.path.dirname(__file__))`
followed by the three banner prints. -/
def bannerEvents (scriptDir : String) : List Event :=
  [Event.chdir scriptDir,
   Event.print "📚 GitCells Documentation Viewer",
   Event.print ("🌐 Starting server at http://localhost:" ++ toString PORT),
   Event.print "Press Ctrl+C to stop\n"]

/-- Events of the missing-artifact branch: guidance prints, then `exit(1)`. -/
def missingEvents : List Event :=
  [Event.print "⚠️  Documentation not built yet!",
   Event.print "Run one of these commands first:",
   Event.print "  - node docs/build.js",
   Event.print "  - ./scripts/build-docs.sh"]

/-- Events of the serving branch: `webbrowser.open` (result discarded),
`TCPServer(("", PORT), DocHandler)`, `serve_forever()` until the
`KeyboardInterrupt`, the shutdown print, and the `with`-block closing the
server.  `browserOk` is the environment's browser-launch outcome. -/
def serveEvents (scriptDir : String) (browserOk : Bool) : List Event :=
  [Event.browserOpen ("http://localhost:" ++ toString PORT) browserOk,
   Event.bind "" PORT,
   Event.serveLoop scriptDir,
   Event.print "\n👋 Shutting down...",
   Event.closeServer]

/-- Embeds the `__main__` block.  `scriptDir` is `os.path.dirname(__file__)`.
The script takes no command-line arguments, so `main_run` has no argv
parameter.  `serve_forever` only returns by `KeyboardInterrupt`, after
which the script falls off the end (exit code 0); if the artifact is
missing the script calls `exit(1)` before any server is created. -/
def main_run (scriptDir : String) (fs : FS) (browserOk : Bool) : MainResult :=
  if fsExists fs (html_path scriptDir) then
    { events := bannerEvents scriptDir ++ serveEvents scriptDir browserOk, exitCode := 0 }
  else
    { events := bannerEvents scriptDir ++ missingEvents, exitCode := 1 }

/-- The print lines of a trace, in order. -/
def printsOf (es : List Event) : List String :=
  es.filterMap fun e =>
    match e with
    | Event.print s => some s
    | _ => none

/-- Concrete fixture: a filesystem holding the artifact (bytes `[72, 105]`)
and one sibling static file, for a script located in directory `docs`. -/
def fsPresent : FS :=
  [("docs/../dist/gitcells-docs.html", [72, 105]), ("docs/readme.txt", [97])]

/-- Concrete fixture: a filesystem without the artifact. -/
def fsAbsent : FS :=
  [("docs/readme.txt", [97])]

/-- C1: for a GET whose path is exactly `/` or `/index.html`, when the
artifact file exists (here: holds `bytes`), the handler responds with
status 200, Content-type `text/html`, and a body byte-identical to the
artifact's contents. -/
theorem C1_serves_artifact (scriptDir cwd : String) (fs : FS) (bytes : List Nat)
    (path : String) (hp : path = "/" ∨ path = "/index.html")
    (h : fsLookup fs (html_path scriptDir) = some bytes) :
    do_GET scriptDir cwd fs path =
      { status := 200, contentType := some "text/html", body := bytes } := by
  rcases hp with hp | hp <;> subst hp <;>
    simp [do_GET, fsExists, h]

/-- C1 witness: on the concrete fixture, `/` returns the artifact bytes. -/
theorem C1_serves_artifact_witness :
    do_GET "docs" "docs" fsPresent "/" =
      { status := 200, contentType := some "text/html", body := [72, 105] } :=
  C1_serves_artifact "docs" "docs" fsPresent [72, 105] "/" (Or.inl rfl) (by decide)

/-- C2: when the artifact is missing, the script prints guidance naming
the external build commands, exits with status 1, and its trace contains
no bind event and no serve loop (the TCP server is never created). -/
theorem C2_missing_artifact_exits (scriptDir : String) (fs : FS) (browserOk : Bool)
    (h : fsExists fs (html_path scriptDir) = false) :
    (main_run scriptDir fs browserOk).exitCode = 1 ∧
    Event.print "⚠️  Documentation not built yet!" ∈ (main_run scriptDir fs browserOk).events ∧
    Event.print "  - node docs/build.js" ∈ (main_run scriptDir fs browserOk).events ∧
    Event.print "  - ./scripts/build-docs.sh" ∈ (main_run scriptDir fs browserOk).events ∧
    (∀ host port, Event.bind host port ∉ (main_run scriptDir fs browserOk).events) ∧
    (∀ cwd, Event.serveLoop cwd ∉ (main_run scriptDir fs browserOk).events) := by
  simp [main_run, h, bannerEvents, missingEvents]

/-- C2 witness: concrete run without the artifact. -/
theorem C2_missing_artifact_exits_witness :
    (main_run "docs" fsAbsent true).exitCode = 1 ∧
    Event.print "⚠️  Documentation not built yet!" ∈ (main_run "docs" fsAbsent true).events ∧
    Event.print "  - node docs/build.js" ∈ (main_run "docs" fsAbsent true).events ∧
    Event.print "  - ./scripts/build-docs.sh" ∈ (main_run "docs" fsAbsent true).events ∧
    (∀ host port, Event.bind host port ∉ (main_run "docs" fsAbsent true).events) ∧
    (∀ cwd, Event.serveLoop cwd ∉ (main_run "docs" fsAbsent true).events) :=
  C2_missing_artifact_exits "docs" fsAbsent true (by decide)

/-- C3: any GET whose path is not exactly `/` nor `/index.html` is
delegated unchanged to the standard static responder rooted at the
working directory; a file existing under that root is returned with
status 200 and its bytes, and a nonexistent path yields its 404. -/
theorem C3_delegates_other_paths (scriptDir cwd : String) (fs : FS) (path : String)
    (h1 : path ≠ "/") (h2 : path ≠ "/index.html") :
    do_GET scriptDir cwd fs path = super_do_GET cwd fs path ∧
    (∀ bytes, fsLookup fs (translate_path cwd path) = some bytes →
      (do_GET scriptDir cwd fs path).status = 200 ∧
      (do_GET scriptDir cwd fs path).body = bytes) ∧
    (fsLookup fs (translate_path cwd path) = none →
      (do_GET scriptDir cwd fs path).status = 404) := by
  have hd : do_GET scriptDir cwd fs path = super_do_GET cwd fs path := by
    simp [do_GET, h1, h2]
  refine ⟨hd, ?_, ?_⟩
  · intro bytes hb
    rw [hd]
    simp [super_do_GET, hb]
  · intro hb
    rw [hd]
    simp [super_do_GET, hb]

/-- C3 witness: on the concrete fixture, an existing sibling file is
served with its bytes and a missing path yields 404. -/
theorem C3_delegates_other_paths_witness :
    (do_GET "docs" "docs" fsPresent "/readme.txt" = super_do_GET "docs" fsPresent "/readme.txt" ∧
      (do_GET "docs" "docs" fsPresent "/readme.txt").status = 200 ∧
      (do_GET "docs" "docs" fsPresent "/readme.txt").body = [97]) ∧
    (do_GET "docs" "docs" fsPresent "/nope.txt").status = 404 := by
  refine ⟨⟨(C3_delegates_other_paths "docs" "docs" fsPresent "/readme.txt"
      (by decide) (by decide)).1, ?_⟩, ?_⟩
  · exact (C3_delegates_other_paths "docs" "docs" fsPresent "/readme.txt"
      (by decide) (by decide)).2.1 [97] (by decide)
  · exact (C3_delegates_other_paths "docs" "docs" fsPresent "/nope.txt"
      (by decide) (by decide)).2.2 (by decide)

/-- C4: when the artifact exists, the serve loop ends only by interrupt,
after which the script prints the shutdown notice, the server is closed
(stops accepting), and the process exits with status 0. -/
theorem C4_interrupt_clean_shutdown (scriptDir : String) (fs : FS) (browserOk : Bool)
    (h : fsExists fs (html_path scriptDir) = true) :
    (main_run scriptDir fs browserOk).exitCode = 0 ∧
    Event.serveLoop scriptDir ∈ (main_run scriptDir fs browserOk).events ∧
    Event.print "\n👋 Shutting down..." ∈ (main_run scriptDir fs browserOk).events ∧
    Event.closeServer ∈ (main_run scriptDir fs browserOk).events := by
  simp [main_run, h, bannerEvents, serveEvents]

/-- C4 witness: concrete run with the artifact present. -/
theorem C4_interrupt_clean_shutdown_witness :
    (main_run "docs" fsPresent true).exitCode = 0 ∧
    Event.serveLoop "docs" ∈ (main_run "docs" fsPresent true).events ∧
    Event.print "\n👋 Shutting down..." ∈ (main_run "docs" fsPresent true).events ∧
    Event.closeServer ∈ (main_run "docs" fsPresent true).events :=
  C4_interrupt_clean_shutdown "docs" fsPresent true (by decide)

/-- C5: serving is idempotent and deterministic: handling a request does
not change the server state, and two successive identical GETs to `/`
produce identical responses. -/
theorem C5_idempotent (st : ServerState) :
    (handle st "/").2 = st ∧
    (handle (handle st "/").2 "/").1 = (handle st "/").1 :=
  ⟨rfl, rfl⟩

/-- C6: the server binds the fixed hardcoded port 8080 on all interfaces
(empty host string) and enters the serve loop, which runs until
interrupted.  `main_run` takes no argv parameter because the script reads
no command-line flags. -/
theorem C6_fixed_port (scriptDir : String) (fs : FS) (browserOk : Bool)
    (h : fsExists fs (html_path scriptDir) = true) :
    PORT = 8080 ∧
    Event.bind "" 8080 ∈ (main_run scriptDir fs browserOk).events ∧
    Event.serveLoop scriptDir ∈ (main_run scriptDir fs browserOk).events := by
  refine ⟨rfl, ?_, ?_⟩ <;> simp [main_run, h, bannerEvents, serveEvents, PORT]

/-- C6 witness: concrete run with the artifact present. -/
theorem C6_fixed_port_witness :
    PORT = 8080 ∧
    Event.bind "" 8080 ∈ (main_run "docs" fsPresent true).events ∧
    Event.serveLoop "docs" ∈ (main_run "docs" fsPresent true).events :=
  C6_fixed_port "docs" fsPresent true (by decide)

/-- C7: when the artifact exists, the trace contains the browser-open
event at the root URL immediately followed by the bind and then the serve
loop (so the launch attempt happens before serving), and the launch
outcome `browserOk` is discarded: whatever it is, the exit code is 0 and
the printed lines are identical (no error is reported). -/
theorem C7_browser_best_effort (scriptDir : String) (fs : FS) (browserOk : Bool)
    (h : fsExists fs (html_path scriptDir) = true) :
    (∃ pre post, (main_run scriptDir fs browserOk).events =
      pre ++ Event.browserOpen ("http://localhost:" ++ toString PORT) browserOk ::
        Event.bind "" PORT :: Event.serveLoop scriptDir :: post) ∧
    (main_run scriptDir fs browserOk).exitCode = 0 ∧
    printsOf (main_run scriptDir fs browserOk).events =
      printsOf (main_run scriptDir fs true).events := by
  refine ⟨⟨bannerEvents scriptDir,
      [Event.print "\n👋 Shutting down...", Event.closeServer], ?_⟩, ?_, ?_⟩ <;>
    simp [main_run, h, bannerEvents, serveEvents, printsOf]

/-- C7 witness: concrete run in which the browser launch fails. -/
theorem C7_browser_best_effort_witness :
    (∃ pre post, (main_run "docs" fsPresent false).events =
      pre ++ Event.browserOpen ("http://localhost:" ++ toString PORT) false ::
        Event.bind "" PORT :: Event.serveLoop "docs" :: post) ∧
    (main_run "docs" fsPresent false).exitCode = 0 ∧
    printsOf (main_run "docs" fsPresent false).events =
      printsOf (main_run "docs" fsPresent true).events :=
  C7_browser_best_effort "docs" fsPresent false (by decide)

/-- C8: if the artifact file is absent at request time, a GET to `/` or
`/index.html` does not error out: the handler falls through to the
standard static responder. -/
theorem C8_absent_artifact_falls_through (scriptDir cwd : String) (fs : FS)
    (h : fsExists fs (html_path scriptDir) = false) :
    do_GET scriptDir cwd fs "/" = super_do_GET cwd fs "/" ∧
    do_GET scriptDir cwd fs "/index.html" = super_do_GET cwd fs "/index.html" := by
  constructor <;> simp [do_GET, h]

/-- C8 witness: on the artifact-less fixture, `/` goes to the default
responder. -/
theorem C8_absent_artifact_falls_through_witness :
    do_GET "docs" "docs" fsAbsent "/" = super_do_GET "docs" fsAbsent "/" ∧
    do_GET "docs" "docs" fsAbsent "/index.html" = super_do_GET "docs" fsAbsent "/index.html" :=
  C8_absent_artifact_falls_through "docs" "docs" fsAbsent (by decide)

/-- C9: the routing compares the raw request path by exact string
equality: every path other than the literal `/` and `/index.html` is
delegated, in particular `/?q=1`, `/index.html?x=1`, `//` and
`/INDEX.HTML`. -/
theorem C9_exact_string_match (scriptDir cwd : String) (fs : FS) :
    (∀ path, path ≠ "/" → path ≠ "/index.html" →
      do_GET scriptDir cwd fs path = super_do_GET cwd fs path) ∧
    do_GET scriptDir cwd fs "/?q=1" = super_do_GET cwd fs "/?q=1" ∧
    do_GET scriptDir cwd fs "/index.html?x=1" = super_do_GET cwd fs "/index.html?x=1" ∧
    do_GET scriptDir cwd fs "//" = super_do_GET cwd fs "//" ∧
    do_GET scriptDir cwd fs "/INDEX.HTML" = super_do_GET cwd fs "/INDEX.HTML" := by
  have hgen : ∀ path, path ≠ "/" → path ≠ "/index.html" →
      do_GET scriptDir cwd fs path = super_do_GET cwd fs path := by
    intro path h1 h2
    simp [do_GET, h1, h2]
  exact ⟨hgen, hgen _ (by decide) (by decide), hgen _ (by decide) (by decide),
    hgen _ (by decide) (by decide), hgen _ (by decide) (by decide)⟩

/-- C9 witness: the general delegation fact applied at a concrete
non-special path on the concrete fixture. -/
theorem C9_exact_string_match_witness :
    do_GET "docs" "docs" fsPresent "/?q=1" = super_do_GET "docs" fsPresent "/?q=1" ∧
    do_GET "docs" "docs" fsPresent "/other" = super_do_GET "docs" fsPresent "/other" :=
  ⟨(C9_exact_string_match "docs" "docs" fsPresent).2.1,
   (C9_exact_string_match "docs" "docs" fsPresent).1 "/other" (by decide) (by decide)⟩

/-- C10: the very first action of the script, before the artifact check
and before any serving, is `os.chdir` to the script's own directory, and
the serve loop's working directory (the static responder's root) is that
same directory. -/
theorem C10_chdir_first (scriptDir : String) (fs : FS) (browserOk : Bool) :
    (main_run scriptDir fs browserOk).events.head? = some (Event.chdir scriptDir) ∧
    (∀ cwd, Event.serveLoop cwd ∈ (main_run scriptDir fs browserOk).events →
      cwd = scriptDir) := by
  cases hfs : fsExists fs (html_path scriptDir) <;>
    simp [main_run, hfs, bannerEvents, serveEvents, missingEvents]

/-- C10 witness: concrete run; the trace starts with the chdir and the
serve loop runs in the script's directory. -/
theorem C10_chdir_first_witness :
    (main_run "docs" fsPresent true).events.head? = some (Event.chdir "docs") ∧
    "docs" = "docs" :=
  ⟨(C10_chdir_first "docs" fsPresent true).1,
   (C10_chdir_first "docs" fsPresent true).2 "docs" (by decide)⟩

end DocsView
